import Mathlib

/-!
Verification of the enso-yield-farming transaction-lifecycle monitor.

Shallow embedding of the relevant JavaScript sources:
  * monitoringService (MonitoringService class): active monitor map, bounded
    polling with retries, terminal handlers, broadcasts;
  * socketService (SocketService class): connected-user map, rooms, ping;
  * farmingController: deposit / withdraw / compound HTTP handlers and the
    module-level service construction guard;
  * transactionController: the in-memory transaction store and cancellation;
  * EnsoYieldFarming service: constructor, getEarnings, autoCompound.

Numbers that JavaScript holds as doubles are modelled as rationals; time
stamps are abstract Nat ticks supplied as inputs; the randomized status
check is modelled as an oracle input (a PollResult argument), since the
claims quantify over what the status check reports.
-/

namespace EnsoFarm

/-- Transaction lifecycle statuses used by the monitor, the broadcasts and
the stored transaction records. -/
inductive TxStatus where
  | monitoring
  | pending
  | completed
  | failed
  | timeout
  | cancelled
  deriving DecidableEq, Repr

/-- One entry of MonitoringService.activeMonitors, as built by
startTransactionMonitoring: txId, txHash, userId, type, details, startTime,
retryCount, status, lastCheck. -/
structure Monitor where
  txId : String
  txHash : String
  userId : String
  txType : String
  details : String
  startTime : Nat
  retryCount : Nat
  status : TxStatus
  lastCheck : Option Nat
  deriving DecidableEq, Repr

/-- Outbound socket messages emitted by the monitoring layer: a
broadcastTransactionUpdate payload (txUpdate) or a sendUserNotification
payload (userNote).  Only the fields the claims observe are kept. -/
inductive Notif where
  | txUpdate (userId txId : String) (status : TxStatus)
      (retryCount : Option Nat) (message : String)
  | userNote (userId kind title message : String)
  deriving DecidableEq, Repr

/-- State of the MonitoringService singleton: the activeMonitors map (keyed
by txId, insertion ordered, unique keys), the stream of emitted socket
messages, and the multiset of scheduled monitorTransaction invocations
(each setTimeout or direct call contributes one entry). -/
structure MonState where
  activeMonitors : List (String × Monitor)
  notifications : List Notif
  scheduled : List String
  deriving DecidableEq, Repr

/-- Map lookup (JavaScript Map.get). -/
def mlookup (l : List (String × Monitor)) (k : String) : Option Monitor :=
  match l with
  | [] => none
  | (k1, v1) :: rest => if k1 = k then some v1 else mlookup rest k

/-- Map write (JavaScript Map.set): replace the binding if the key is
present, append otherwise. -/
def mset (l : List (String × Monitor)) (k : String) (v : Monitor) :
    List (String × Monitor) :=
  match l with
  | [] => [(k, v)]
  | (k1, v1) :: rest =>
      if k1 = k then (k1, v) :: rest else (k1, v1) :: mset rest k v

/-- Update the binding only when the key is present.  This models an
in-place mutation of a captured record object: the mutation is visible
through the map exactly when the object is still stored in it. -/
def msetIfPresent (l : List (String × Monitor)) (k : String) (v : Monitor) :
    List (String × Monitor) :=
  match l with
  | [] => []
  | (k1, v1) :: rest =>
      if k1 = k then (k1, v) :: rest else (k1, v1) :: msetIfPresent rest k v

/-- Map delete (JavaScript Map.delete; keys are unique). -/
def merase (l : List (String × Monitor)) (k : String) :
    List (String × Monitor) :=
  match l with
  | [] => []
  | (k1, v1) :: rest =>
      if k1 = k then merase rest k else (k1, v1) :: merase rest k

/-- Remove one occurrence from the scheduled-invocation multiset. -/
def eraseOne (l : List String) (x : String) : List String :=
  match l with
  | [] => []
  | y :: rest => if y = x then rest else y :: eraseOne rest x

/-- MonitoringService.maxRetries (constructor). -/
def maxRetries : Nat := 5

/-- MonitoringService.monitoringInterval in milliseconds (constructor). -/
def monitoringIntervalMs : Nat := 30000

/-- What one checkTransactionStatus call reports back to monitorTransaction:
the completed flag, the failed flag, the still-pending case, or an
exception raised during the check. -/
inductive PollResult where
  | completed
  | failed (err : String)
  | stillPending
  | raised (err : String)
  deriving DecidableEq, Repr

/-- The progress update broadcast in the still-pending branch of
monitorTransaction: status pending, the current retry count and the
check-progress message. -/
def pendingProgressNotif (m : Monitor) : Notif :=
  Notif.txUpdate m.userId m.txId TxStatus.pending (some m.retryCount)
    "Transaction pending"

/-- MonitoringService.triggerBalanceUpdate: a single informational user
notification asking the client to refresh balances. -/
def triggerBalanceUpdate (s : MonState) (userId : String) : MonState :=
  { s with notifications := s.notifications ++
      [Notif.userNote userId "info" "Balance Update"
        "Your balances have been updated"] }

/-- MonitoringService.handleTransactionCompleted: re-fetches the record from
activeMonitors and returns unchanged when it is gone; otherwise broadcasts
the completed update and the success notification, deletes the entry and
triggers the balance refresh. -/
def handleTransactionCompleted (s : MonState) (txId : String) : MonState :=
  match mlookup s.activeMonitors txId with
  | none => s
  | some m =>
      let s1 : MonState := { s with notifications := s.notifications ++
        [Notif.txUpdate m.userId m.txId TxStatus.completed none
          "Transaction completed successfully",
         Notif.userNote m.userId "success" "Transaction Successful"
          "Your transaction has been completed successfully"] }
      let s2 : MonState :=
        { s1 with activeMonitors := merase s1.activeMonitors txId }
      triggerBalanceUpdate s2 m.userId

/-- MonitoringService.handleTransactionFailed: guard on membership, then the
failed update and the error notification, then deletion (no balance
refresh). -/
def handleTransactionFailed (s : MonState) (txId : String) (err : String) :
    MonState :=
  match mlookup s.activeMonitors txId with
  | none => s
  | some m =>
      let s1 : MonState := { s with notifications := s.notifications ++
        [Notif.txUpdate m.userId m.txId TxStatus.failed none err,
         Notif.userNote m.userId "error" "Transaction Failed" err] }
      { s1 with activeMonitors := merase s1.activeMonitors txId }

/-- MonitoringService.handleTransactionTimeout: guard on membership, then
the timeout update (carrying the retry count) and the warning notification,
then deletion. -/
def handleTransactionTimeout (s : MonState) (txId : String) : MonState :=
  match mlookup s.activeMonitors txId with
  | none => s
  | some m =>
      let s1 : MonState := { s with notifications := s.notifications ++
        [Notif.txUpdate m.userId m.txId TxStatus.timeout
          (some m.retryCount) "Transaction monitoring timed out - check manually",
         Notif.userNote m.userId "warning" "Transaction Status Unknown"
          "Unable to confirm transaction status. Please check manually."] }
      { s1 with activeMonitors := merase s1.activeMonitors txId }

/-- The tail of monitorTransaction after the awaited status check resolves,
with the record object m captured before the await.  Mutations of the
captured object reach the map only while the object is still stored there
(msetIfPresent); the terminal handlers re-fetch the record from the map and
drop the result when the entry has been removed in the meantime. -/
def resumePoll (s : MonState) (txId : String) (m : Monitor)
    (res : PollResult) (now : Nat) : MonState :=
  let m1 : Monitor := { m with lastCheck := some now }
  let s1 : MonState :=
    { s with activeMonitors := msetIfPresent s.activeMonitors txId m1 }
  match res with
  | PollResult.completed => handleTransactionCompleted s1 txId
  | PollResult.failed err => handleTransactionFailed s1 txId err
  | PollResult.stillPending =>
      let m2 : Monitor := { m1 with retryCount := m1.retryCount + 1 }
      let s2 : MonState :=
        { s1 with activeMonitors := msetIfPresent s1.activeMonitors txId m2 }
      if maxRetries ≤ m2.retryCount then
        handleTransactionTimeout s2 txId
      else
        { s2 with scheduled := s2.scheduled ++ [txId],
                  notifications := s2.notifications ++ [pendingProgressNotif m2] }
  | PollResult.raised _ =>
      let m2 : Monitor := { m1 with retryCount := m1.retryCount + 1 }
      let s2 : MonState :=
        { s1 with activeMonitors := msetIfPresent s1.activeMonitors txId m2 }
      if maxRetries ≤ m2.retryCount then
        handleTransactionTimeout s2 txId
      else
        { s2 with scheduled := s2.scheduled ++ [txId] }

/-- One monitorTransaction invocation firing: it consumes its scheduled
slot, returns immediately when the txId is no longer in activeMonitors, and
otherwise runs the poll whose outcome is res. -/
def monitorStep (s : MonState) (txId : String) (res : PollResult)
    (now : Nat) : MonState :=
  let s0 : MonState := { s with scheduled := eraseOne s.scheduled txId }
  match mlookup s0.activeMonitors txId with
  | none => s0
  | some m => resumePoll s0 txId m res now

/-- MonitoringService.startTransactionMonitoring: no-op when the txId is
already active; otherwise store a fresh record, start the polling loop
(one scheduled invocation) and broadcast the initial monitoring update. -/
def startTransactionMonitoring (s : MonState)
    (txId txHash userId txType details : String) (now : Nat) : MonState :=
  if (mlookup s.activeMonitors txId).isSome then s
  else
    let m : Monitor :=
      { txId := txId, txHash := txHash, userId := userId, txType := txType,
        details := details, startTime := now, retryCount := 0,
        status := TxStatus.monitoring, lastCheck := none }
    { s with
        activeMonitors := mset s.activeMonitors txId m,
        scheduled := s.scheduled ++ [txId],
        notifications := s.notifications ++
          [Notif.txUpdate userId txId TxStatus.monitoring none
            "Transaction monitoring started"] }

/-- MonitoringService.stopMonitoring: delete the entry when present and
report whether anything was removed. -/
def stopMonitoring (s : MonState) (txId : String) : MonState × Bool :=
  if (mlookup s.activeMonitors txId).isSome then
    ({ s with activeMonitors := merase s.activeMonitors txId }, true)
  else
    (s, false)

/-- One record of the transactionController in-memory store (the fields the
claims observe). -/
structure StoredTx where
  id : String
  txHash : String
  userAddress : String
  txType : String
  status : TxStatus
  deriving DecidableEq, Repr

/-- Store lookup (transactionStore.get). -/
def slookup (l : List (String × StoredTx)) (k : String) : Option StoredTx :=
  match l with
  | [] => none
  | (k1, v1) :: rest => if k1 = k then some v1 else slookup rest k

/-- Store write (transactionStore.set, or the in-place status mutation of a
record already held by the store). -/
def sset (l : List (String × StoredTx)) (k : String) (v : StoredTx) :
    List (String × StoredTx) :=
  match l with
  | [] => [(k, v)]
  | (k1, v1) :: rest =>
      if k1 = k then (k1, v) :: rest else (k1, v1) :: sset rest k v

/-- Combined backend state for the HTTP handlers: the monitoring singleton
and the transactionController store. -/
structure SysState where
  mon : MonState
  txStore : List (String × StoredTx)
  deriving DecidableEq, Repr

/-- HTTP responses, reduced to the status/kind the claims distinguish. -/
inductive HttpResp where
  | ok200 (message : String)
  | accepted202 (txId txHash : String)
  | badRequest (kind message : String)
  | notFound (message : String)
  | unavailable (message : String)
  | serverError (kind : String)
  deriving DecidableEq, Repr

/-- External side effects of a handler run, beyond what MonState and the
store already record: chain balance reads and simulated submissions. -/
inductive Effect where
  | balanceRead (chain : String)
  | submitTx (kind : String)
  deriving DecidableEq, Repr

/-- transactionController.cancelTransaction: 404 when unknown, 400 unless
the stored status is pending, otherwise mark the record cancelled, stop
monitoring and broadcast the cancelled update. -/
def cancelTransaction (st : SysState) (transactionId : String) :
    SysState × HttpResp :=
  match slookup st.txStore transactionId with
  | none => (st, HttpResp.notFound "Transaction Not Found")
  | some t =>
      if t.status ≠ TxStatus.pending then
        (st, HttpResp.badRequest "Invalid Transaction Status"
          "Only pending transactions can be cancelled")
      else
        let t1 : StoredTx := { t with status := TxStatus.cancelled }
        let store1 := sset st.txStore transactionId t1
        let mon1 := (stopMonitoring st.mon transactionId).1
        let mon2 : MonState := { mon1 with notifications :=
          mon1.notifications ++
            [Notif.txUpdate t.userAddress transactionId TxStatus.cancelled
              none "Transaction cancelled"] }
        ({ mon := mon2, txStore := store1 },
         HttpResp.ok200 "Transaction cancelled successfully")

/-- Opaque handle to a successfully constructed EnsoYieldFarming service. -/
structure EnsoService where
  apiKey : String
  privateKey : String
  account : String
  deriving DecidableEq, Repr

/-- Fields of the object under construction in the EnsoYieldFarming
constructor, in assignment order.  The wallet field exists in the model
because the constructor reads this.wallet, but no statement of the
constructor ever assigns it. -/
structure EnsoCtorFields where
  apiKey : Option String := none
  privateKey : Option String := none
  account : Option String := none
  polygonClient : Bool := false
  gnosisClient : Bool := false
  polygonWalletClient : Bool := false
  gnosisWalletClient : Bool := false
  cacheReady : Bool := false
  wallet : Option String := none
  deriving DecidableEq, Repr

/-- Opaque model of viem privateKeyToAccount: derives an account address
from the private key. -/
def privateKeyToAccountAddr (privateKey : String) : String :=
  "account-of:" ++ privateKey

/-- The EnsoYieldFarming constructor: performs its field assignments in
source order, then evaluates the startup log payload, which reads
this.wallet.address.  Reading a property of an undefined field raises a
TypeError, so construction fails. -/
def constructEnso (apiKey privateKey : String) :
    Except String EnsoService :=
  let t0 : EnsoCtorFields := {}
  let t1 : EnsoCtorFields := { t0 with apiKey := some apiKey }
  let t2 : EnsoCtorFields := { t1 with privateKey := some privateKey }
  let t3 : EnsoCtorFields :=
    { t2 with account := some (privateKeyToAccountAddr privateKey) }
  let t4 : EnsoCtorFields := { t3 with polygonClient := true }
  let t5 : EnsoCtorFields := { t4 with gnosisClient := true }
  let t6 : EnsoCtorFields := { t5 with polygonWalletClient := true }
  let t7 : EnsoCtorFields := { t6 with gnosisWalletClient := true }
  let t8 : EnsoCtorFields := { t7 with cacheReady := true }
  match t8.wallet with
  | none => Except.error "TypeError: cannot read address of undefined"
  | some _ =>
      match t8.apiKey, t8.privateKey, t8.account with
      | some k, some p, some a =>
          Except.ok { apiKey := k, privateKey := p, account := a }
      | _, _, _ => Except.error "unreachable"

/-- The module-level service setup of farmingController: when either env
value is missing the service stays null with a warning; otherwise the
constructor runs inside a try/catch whose catch leaves the service null. -/
def ensoServiceInit (apiKeyEnv privateKeyEnv : Option String) :
    Option EnsoService :=
  match apiKeyEnv, privateKeyEnv with
  | some k, some p =>
      match constructEnso k p with
      | Except.ok s => some s
      | Except.error _ => none
  | _, _ => none

/-- Rounding to six decimal places, the rational counterpart of the
toFixed(6) formatting applied by getEarnings. -/
def round6 (q : ℚ) : ℚ := ((q * 1000000 + 1 / 2).floor : ℚ) / 1000000

/-- EnsoYieldFarming.getEarnings: reads the Gnosis LP balance, returns one
percent of it rounded to six decimals; any error thrown by the balance read
is caught and turned into the value 0. -/
def getEarningsQ (gnosisLp : Except String ℚ) : ℚ :=
  match gnosisLp with
  | Except.error _ => 0
  | Except.ok lp => round6 (lp * (1 / 100))

/-- farmingController.deposit.  svcOpt is the module-level service (null
when construction failed), polygonEure the outcome of the EURe balance
read, genTxId and genTxHash the values produced by the random generators
inside depositWithMonitoring. -/
def depositHandler (svcOpt : Option EnsoService)
    (polygonEure : Except String ℚ) (amount slippage : ℚ)
    (userAddress genTxId genTxHash : String) (st : SysState) :
    SysState × HttpResp × List Effect :=
  match svcOpt with
  | none => (st, HttpResp.unavailable "Service Unavailable", [])
  | some _ =>
      if amount ≤ 0 then
        (st, HttpResp.badRequest "Invalid Amount"
          "Amount must be greater than 0", [])
      else
        match polygonEure with
        | Except.error _ =>
            (st, HttpResp.serverError "Deposit Failed",
             [Effect.balanceRead "polygon"])
        | Except.ok bal =>
            if bal < amount then
              (st, HttpResp.badRequest "Insufficient Balance"
                "Insufficient EURe balance", [Effect.balanceRead "polygon"])
            else
              let mon1 := startTransactionMonitoring st.mon genTxId genTxHash
                userAddress "deposit" "EURe polygon to gnosis" 0
              let mon2 : MonState := { mon1 with notifications :=
                mon1.notifications ++
                  [Notif.userNote userAddress "info" "Deposit Initiated"
                    "Deposit has been initiated"] }
              ({ st with mon := mon2 },
               HttpResp.accepted202 genTxId genTxHash,
               [Effect.balanceRead "polygon", Effect.submitTx "deposit"])

/-- farmingController.withdraw: no service guard; the amount check runs
first, then the LP balance read (a property access on a null service raises
before any read and lands in the catch as a 500). -/
def withdrawHandler (svcOpt : Option EnsoService)
    (gnosisLp : Except String ℚ) (amount slippage : ℚ)
    (userAddress genTxId genTxHash : String) (st : SysState) :
    SysState × HttpResp × List Effect :=
  if amount ≤ 0 then
    (st, HttpResp.badRequest "Invalid Amount"
      "Amount must be greater than 0", [])
  else
    match svcOpt with
    | none => (st, HttpResp.serverError "Withdrawal Failed", [])
    | some _ =>
        match gnosisLp with
        | Except.error _ =>
            (st, HttpResp.serverError "Withdrawal Failed",
             [Effect.balanceRead "gnosis"])
        | Except.ok bal =>
            if bal < amount then
              (st, HttpResp.badRequest "Insufficient Balance"
                "Insufficient LP token balance", [Effect.balanceRead "gnosis"])
            else
              let mon1 := startTransactionMonitoring st.mon genTxId genTxHash
                userAddress "withdraw" "LP-EURe gnosis to polygon" 0
              let mon2 : MonState := { mon1 with notifications :=
                mon1.notifications ++
                  [Notif.userNote userAddress "info" "Withdrawal Initiated"
                    "Withdrawal has been initiated"] }
              ({ st with mon := mon2 },
               HttpResp.accepted202 genTxId genTxHash,
               [Effect.balanceRead "gnosis", Effect.submitTx "withdraw"])

/-- farmingController.compound: reads the earnings (one balance read), then
rejects when they are at most 0.01; otherwise autoCompound re-reads the
earnings (second balance read over the same oracle) and, the strict
threshold holding again, performs depositWithMonitoring of the earned
amount; the controller then registers the compound monitor.  A null service
raises on the first property access and lands in the catch as a 500. -/
def compoundHandler (svcOpt : Option EnsoService)
    (gnosisLp : Except String ℚ) (slippage : ℚ)
    (userAddress genTxId genTxHash : String) (st : SysState) :
    SysState × HttpResp × List Effect :=
  match svcOpt with
  | none => (st, HttpResp.serverError "Auto-Compound Failed", [])
  | some _ =>
      let earningsAmount := getEarningsQ gnosisLp
      if earningsAmount ≤ 1 / 100 then
        (st, HttpResp.badRequest "No Earnings Available"
          "Insufficient earnings to compound", [Effect.balanceRead "gnosis"])
      else
        let earnings2 := getEarningsQ gnosisLp
        if 1 / 100 < earnings2 then
          let mon1 := startTransactionMonitoring st.mon genTxId genTxHash
            userAddress "compound" "auto-compound" 0
          let mon2 : MonState := { mon1 with notifications :=
            mon1.notifications ++
              [Notif.userNote userAddress "info" "Auto-Compound Initiated"
                "Auto-compound has been initiated"] }
          ({ st with mon := mon2 },
           HttpResp.accepted202 genTxId genTxHash,
           [Effect.balanceRead "gnosis", Effect.balanceRead "gnosis",
            Effect.submitTx "deposit"])
        else
          (st, HttpResp.ok200 "No earnings available to compound",
           [Effect.balanceRead "gnosis", Effect.balanceRead "gnosis"])

/-- Per-connection bookkeeping entry of SocketService.connectedUsers. -/
structure UserInfo where
  userId : Option String
  userAddress : Option String
  roomsList : List String
  authenticated : Bool
  deriving DecidableEq, Repr

/-- SocketService state: the connectedUsers map keyed by socket id, and the
set of room memberships maintained by socket.join, as (socketId, room)
pairs. -/
structure SockState where
  connectedUsers : List (String × UserInfo)
  rooms : List (String × String)
  deriving DecidableEq, Repr

/-- Lookup in connectedUsers. -/
def clookup (l : List (String × UserInfo)) (k : String) : Option UserInfo :=
  match l with
  | [] => none
  | (k1, v1) :: rest => if k1 = k then some v1 else clookup rest k

/-- Write to connectedUsers (Map.set). -/
def cset (l : List (String × UserInfo)) (k : String) (v : UserInfo) :
    List (String × UserInfo) :=
  match l with
  | [] => [(k, v)]
  | (k1, v1) :: rest =>
      if k1 = k then (k1, v) :: rest else (k1, v1) :: cset rest k v

/-- Delete from connectedUsers (Map.delete). -/
def cerase (l : List (String × UserInfo)) (k : String) :
    List (String × UserInfo) :=
  match l with
  | [] => []
  | (k1, v1) :: rest =>
      if k1 = k then cerase rest k else (k1, v1) :: cerase rest k

/-- socket.join: set-like room membership. -/
def joinRoom (rooms : List (String × String)) (socketId room : String) :
    List (String × String) :=
  if (socketId, room) ∈ rooms then rooms else rooms ++ [(socketId, room)]

/-- Messages a handler emits back to the client socket. -/
inductive SockEvent where
  | pong (timestamp : Nat)
  | subscribedEvt (kind userId room : String)
  | authedEvt (userAddress : String)
  | errorEvt (message : String)
  deriving DecidableEq, Repr

/-- SocketService.subscribeToBalances: reject an empty user id, otherwise
join the balances room, overwrite the connection entry with a fresh record
whose room list is just that room, and acknowledge. -/
def subscribeToBalances (s : SockState) (socketId userId : String) :
    SockState × List SockEvent :=
  if userId = "" then
    (s, [SockEvent.errorEvt "User ID is required for subscription"])
  else
    let room := "balances:" ++ userId
    let info : UserInfo :=
      { userId := some userId, userAddress := none, roomsList := [room],
        authenticated := false }
    ({ connectedUsers := cset s.connectedUsers socketId info,
       rooms := joinRoom s.rooms socketId room },
     [SockEvent.subscribedEvt "balances" userId room])

/-- SocketService.subscribeToTransactions: reject an empty user id,
otherwise join the transactions room, merge the room into the existing
connection entry (or a fresh one) and acknowledge. -/
def subscribeToTransactions (s : SockState) (socketId userId : String) :
    SockState × List SockEvent :=
  if userId = "" then
    (s, [SockEvent.errorEvt "User ID is required for subscription"])
  else
    let room := "transactions:" ++ userId
    let base : UserInfo :=
      match clookup s.connectedUsers socketId with
      | some info => info
      | none => { userId := some userId, userAddress := none,
                  roomsList := [], authenticated := false }
    let info : UserInfo :=
      if room ∈ base.roomsList then base
      else { base with roomsList := base.roomsList ++ [room] }
    ({ connectedUsers := cset s.connectedUsers socketId info,
       rooms := joinRoom s.rooms socketId room },
     [SockEvent.subscribedEvt "transactions" userId room])

/-- SocketService.authenticateUser: mark the connection entry (or a fresh
one) as authenticated for the address and acknowledge. -/
def authenticateUser (s : SockState) (socketId userAddress : String) :
    SockState × List SockEvent :=
  let base : UserInfo :=
    match clookup s.connectedUsers socketId with
    | some info => info
    | none => { userId := none, userAddress := none, roomsList := [],
                authenticated := false }
  let info : UserInfo :=
    { base with userAddress := some userAddress, authenticated := true }
  ({ s with connectedUsers := cset s.connectedUsers socketId info },
   [SockEvent.authedEvt userAddress])

/-- SocketService disconnect handler: drop the connection entry (the socket
runtime also forgets its room memberships). -/
def handleDisconnect (s : SockState) (socketId : String) :
    SockState × List SockEvent :=
  ({ connectedUsers := cerase s.connectedUsers socketId,
     rooms := (s.rooms.filter fun p => p.1 ≠ socketId) }, [])

/-- Client-to-server events wired up in SocketService for each
connection. -/
inductive ClientEvent where
  | subBalances (userId : String)
  | subTransactions (userId : String)
  | authRequest (userAddress : String)
  | ping
  | disconnect
  deriving DecidableEq, Repr

/-- Dispatch of one incoming client event, as registered on connection; the
ping branch only emits a pong carrying a timestamp. -/
def handleClientEvent (s : SockState) (socketId : String)
    (evt : ClientEvent) (now : Nat) : SockState × List SockEvent :=
  match evt with
  | ClientEvent.subBalances userId => subscribeToBalances s socketId userId
  | ClientEvent.subTransactions userId =>
      subscribeToTransactions s socketId userId
  | ClientEvent.authRequest userAddress =>
      authenticateUser s socketId userAddress
  | ClientEvent.ping => (s, [SockEvent.pong now])
  | ClientEvent.disconnect => handleDisconnect s socketId

/-- Counts the timeout-status transaction updates for a given txId in a
notification stream. -/
def isTimeoutNotifFor (n : Notif) (txId : String) : Bool :=
  match n with
  | Notif.txUpdate _ nid st _ _ =>
      decide (nid = txId) && decide (st = TxStatus.timeout)
  | Notif.userNote _ _ _ _ => false

/-- Number of timeout updates for txId in the stream. -/
def countTimeoutNotifs (l : List Notif) (txId : String) : Nat :=
  match l with
  | [] => 0
  | n :: rest =>
      (if isTimeoutNotifFor n txId then 1 else 0) + countTimeoutNotifs rest txId

theorem mlookup_mset_self (l : List (String × Monitor)) (k : String)
    (v : Monitor) : mlookup (mset l k v) k = some v := by
  induction l with
  | nil => simp [mset, mlookup]
  | cons hd tl ih =>
      obtain ⟨k1, v1⟩ := hd
      by_cases h : k1 = k
      · simp [mset, mlookup, h]
      · simp [mset, mlookup, h, ih]

theorem msetIfPresent_of_none (l : List (String × Monitor)) (k : String)
    (v : Monitor) (h : mlookup l k = none) : msetIfPresent l k v = l := by
  induction l with
  | nil => simp [msetIfPresent]
  | cons hd tl ih =>
      obtain ⟨k1, v1⟩ := hd
      by_cases hk : k1 = k
      · simp [mlookup, hk] at h
      · simp [mlookup, hk] at h
        simp [msetIfPresent, hk, ih h]

theorem mlookup_msetIfPresent_self (l : List (String × Monitor)) (k : String)
    (v w : Monitor) (h : mlookup l k = some w) :
    mlookup (msetIfPresent l k v) k = some v := by
  induction l with
  | nil => simp [mlookup] at h
  | cons hd tl ih =>
      obtain ⟨k1, v1⟩ := hd
      by_cases hk : k1 = k
      · simp [msetIfPresent, mlookup, hk]
      · simp [mlookup, hk] at h
        simp [msetIfPresent, mlookup, hk, ih h]

theorem mlookup_merase_self (l : List (String × Monitor)) (k : String) :
    mlookup (merase l k) k = none := by
  induction l with
  | nil => simp [merase, mlookup]
  | cons hd tl ih =>
      obtain ⟨k1, v1⟩ := hd
      by_cases hk : k1 = k
      · simp [merase, hk, ih]
      · simp [merase, mlookup, hk, ih]

theorem length_mset_of_none (l : List (String × Monitor)) (k : String)
    (v : Monitor) (h : mlookup l k = none) :
    (mset l k v).length = l.length + 1 := by
  induction l with
  | nil => simp [mset]
  | cons hd tl ih =>
      obtain ⟨k1, v1⟩ := hd
      by_cases hk : k1 = k
      · simp [mlookup, hk] at h
      · simp [mlookup, hk] at h
        simp [mset, hk, ih h]

theorem slookup_sset_self (l : List (String × StoredTx)) (k : String)
    (v : StoredTx) : slookup (sset l k v) k = some v := by
  induction l with
  | nil => simp [sset, slookup]
  | cons hd tl ih =>
      obtain ⟨k1, v1⟩ := hd
      by_cases h : k1 = k
      · simp [sset, slookup, h]
      · simp [sset, slookup, h, ih]

theorem mlookup_stopMonitoring_self (s : MonState) (txId : String) :
    mlookup ((stopMonitoring s txId).1).activeMonitors txId = none := by
  by_cases h : (mlookup s.activeMonitors txId).isSome
  · simp [stopMonitoring, h, mlookup_merase_self]
  · simp only [Option.isSome] at h
    cases hl : mlookup s.activeMonitors txId with
    | none => simp [stopMonitoring, hl]
    | some m => rw [hl] at h; simp at h

theorem handleTransactionCompleted_of_none (s : MonState) (txId : String)
    (h : mlookup s.activeMonitors txId = none) :
    handleTransactionCompleted s txId = s := by
  simp [handleTransactionCompleted, h]

theorem handleTransactionFailed_of_none (s : MonState) (txId err : String)
    (h : mlookup s.activeMonitors txId = none) :
    handleTransactionFailed s txId err = s := by
  simp [handleTransactionFailed, h]

theorem handleTransactionTimeout_of_none (s : MonState) (txId : String)
    (h : mlookup s.activeMonitors txId = none) :
    handleTransactionTimeout s txId = s := by
  simp [handleTransactionTimeout, h]

theorem resumePoll_removed_completed (s : MonState) (txId : String)
    (m : Monitor) (now : Nat) (h : mlookup s.activeMonitors txId = none) :
    resumePoll s txId m PollResult.completed now = s := by
  simp [resumePoll, msetIfPresent_of_none _ _ _ h,
    handleTransactionCompleted_of_none _ _ h]

theorem resumePoll_removed_failed (s : MonState) (txId err : String)
    (m : Monitor) (now : Nat) (h : mlookup s.activeMonitors txId = none) :
    resumePoll s txId m (PollResult.failed err) now = s := by
  simp [resumePoll, msetIfPresent_of_none _ _ _ h,
    handleTransactionFailed_of_none _ _ err h]

theorem resumePoll_removed_activeMonitors (s : MonState) (txId : String)
    (m : Monitor) (res : PollResult) (now : Nat)
    (h : mlookup s.activeMonitors txId = none) :
    (resumePoll s txId m res now).activeMonitors = s.activeMonitors := by
  cases res with
  | completed =>
      rw [resumePoll_removed_completed _ _ _ _ h]
  | failed err =>
      rw [resumePoll_removed_failed _ _ _ _ _ h]
  | stillPending =>
      by_cases h5 : maxRetries ≤ m.retryCount + 1
      · simp [resumePoll, msetIfPresent_of_none _ _ _ h, h5,
          handleTransactionTimeout_of_none _ _ h]
      · simp [resumePoll, msetIfPresent_of_none _ _ _ h, h5]
  | raised err =>
      by_cases h5 : maxRetries ≤ m.retryCount + 1
      · simp [resumePoll, msetIfPresent_of_none _ _ _ h, h5,
          handleTransactionTimeout_of_none _ _ h]
      · simp [resumePoll, msetIfPresent_of_none _ _ _ h, h5]

/-- Concrete fixtures used by witnesses and counterexamples. -/
def emptyMon : MonState :=
  { activeMonitors := [], notifications := [], scheduled := [] }

/-- A monitoring state with one freshly registered transaction t1. -/
def regMon1 : MonState :=
  startTransactionMonitoring emptyMon "t1" "h1" "u1" "deposit" "d1" 0

/-- The record that startTransactionMonitoring stored for t1 (the object a
running poll captures before its await). -/
def capturedMon1 : Monitor :=
  { txId := "t1", txHash := "h1", userId := "u1", txType := "deposit",
    details := "d1", startTime := 0, retryCount := 0,
    status := TxStatus.monitoring, lastCheck := none }

/-- A pending stored transaction record for t1. -/
def storedPending1 : StoredTx :=
  { id := "t1", txHash := "h1", userAddress := "u1", txType := "deposit",
    status := TxStatus.pending }

/-- A service handle for witnesses. -/
def svc0 : EnsoService :=
  { apiKey := "k0", privateKey := "p0", account := "a0" }

/-- An empty combined backend state. -/
def sys0 : SysState := { mon := emptyMon, txStore := [] }

/-- Combined state with t1 registered in the monitor and stored as
pending. -/
def sys1 : SysState :=
  { mon := regMon1, txStore := [("t1", storedPending1)] }

theorem ratFloor_eq_intFloor (q : ℚ) : (Rat.floor q : ℤ) = ⌊q⌋ := rfl

theorem getEarningsQ_error (e : String) : getEarningsQ (Except.error e) = 0 :=
  rfl

theorem getEarningsQ_ok_one : getEarningsQ (Except.ok 1) = 1 / 100 := by
  show round6 (1 * (1 / 100)) = 1 / 100
  rw [round6, ratFloor_eq_intFloor,
    show ((1 : ℚ) * (1 / 100) * 1000000 + 1 / 2) = 20001 / 2 by norm_num,
    show ⌊((20001 : ℚ) / 2)⌋ = 10000 by rw [Int.floor_eq_iff] <;> norm_num]
  norm_num

theorem getEarningsQ_ok_two : getEarningsQ (Except.ok 2) = 1 / 50 := by
  show round6 (2 * (1 / 100)) = 1 / 50
  rw [round6, ratFloor_eq_intFloor,
    show ((2 : ℚ) * (1 / 100) * 1000000 + 1 / 2) = 40001 / 2 by norm_num,
    show ⌊((40001 : ℚ) / 2)⌋ = 20000 by rw [Int.floor_eq_iff] <;> norm_num]
  norm_num

/-- C3: registering a transaction id that is already in the active monitor
set is a complete no-op: the state (monitor map, scheduled polling loops
and emitted notifications) is returned unchanged, so no second polling
loop and no extra notification can arise. -/
theorem c3_idempotent_registration (s : MonState)
    (txId txHash userId txType details : String) (now : Nat)
    (h : (mlookup s.activeMonitors txId).isSome = true) :
    startTransactionMonitoring s txId txHash userId txType details now = s := by
  simp [startTransactionMonitoring, h]

/-- Witness for C3 at a concrete state in which t1 is already monitored. -/
theorem c3_witness :
    (mlookup regMon1.activeMonitors "t1").isSome = true ∧
    startTransactionMonitoring regMon1 "t1" "h9" "u9" "withdraw" "d9" 7 =
      regMon1 :=
  ⟨by decide,
   c3_idempotent_registration regMon1 "t1" "h9" "u9" "withdraw" "d9" 7
     (by decide)⟩

/-- C9: a ping event is answered with a pong carrying a timestamp and the
socket state (connected-users map and room memberships) is returned
unchanged. -/
theorem c9_ping_answers_pong_frame (s : SockState) (socketId : String)
    (now : Nat) :
    handleClientEvent s socketId ClientEvent.ping now =
      (s, [SockEvent.pong now]) :=
  rfl

/-- C10: a failing balance read inside getEarnings is swallowed and turned
into earnings 0, so the compound request is answered with the 400
no-earnings rejection (after one attempted balance read) instead of an
upstream failure. -/
theorem c10_earnings_error_swallowed (e : String) (svc : EnsoService)
    (slippage : ℚ) (userAddress genTxId genTxHash : String) (st : SysState) :
    getEarningsQ (Except.error e) = 0 ∧
    compoundHandler (some svc) (Except.error e) slippage userAddress genTxId
        genTxHash st =
      (st, HttpResp.badRequest "No Earnings Available"
        "Insufficient earnings to compound", [Effect.balanceRead "gnosis"]) := by
  refine ⟨rfl, ?_⟩
  have h : getEarningsQ (Except.error e) ≤ 1 / 100 := by
    rw [getEarningsQ_error]; norm_num
  simp only [compoundHandler]
  rw [if_pos h]

/-- C7: a deposit request (with the service configured) or a withdraw
request whose amount is at most zero is rejected with the 400 invalid
amount error, with the backend state unchanged and no balance read,
submission, monitor entry or notification. -/
theorem c7_invalid_amount_rejected (svc : EnsoService)
    (svcOpt : Option EnsoService) (balP balG : Except String ℚ)
    (amount slippage : ℚ) (userAddress genTxId genTxHash : String)
    (st : SysState) (h : amount ≤ 0) :
    depositHandler (some svc) balP amount slippage userAddress genTxId
        genTxHash st =
      (st, HttpResp.badRequest "Invalid Amount"
        "Amount must be greater than 0", []) ∧
    withdrawHandler svcOpt balG amount slippage userAddress genTxId
        genTxHash st =
      (st, HttpResp.badRequest "Invalid Amount"
        "Amount must be greater than 0", []) := by
  constructor
  · simp [depositHandler, h]
  · simp [withdrawHandler, h]

/-- Witness for C7 at amount minus one. -/
theorem c7_witness :
    ((-1 : ℚ) ≤ 0) ∧
    depositHandler (some svc0) (Except.ok 100) (-1) (1 / 2) "u9" "t9" "h9"
        sys0 =
      (sys0, HttpResp.badRequest "Invalid Amount"
        "Amount must be greater than 0", []) ∧
    withdrawHandler none (Except.ok 100) (-1) (1 / 2) "u9" "t9" "h9" sys0 =
      (sys0, HttpResp.badRequest "Invalid Amount"
        "Amount must be greater than 0", []) := by
  have h := c7_invalid_amount_rejected svc0 none (Except.ok 100)
    (Except.ok 100) (-1) (1 / 2) "u9" "t9" "h9" sys0 (by norm_num)
  exact ⟨by norm_num, h.1, h.2⟩

/-- C8: the constructor always fails with a TypeError because it reads the
wallet field, which is never assigned; the module-level service therefore
stays null, every deposit request is answered 503 with no side effects (so
no deposit can ever create a transaction or monitor entry), and withdraw
requests with a positive amount as well as compound requests are answered
500. -/
theorem c8_constructor_wallet_bug (k p : String) :
    constructEnso k p =
      Except.error "TypeError: cannot read address of undefined" ∧
    ensoServiceInit (some k) (some p) = none ∧
    (∀ (balP : Except String ℚ) (amount slippage : ℚ)
       (userAddress genTxId genTxHash : String) (st : SysState),
      depositHandler (ensoServiceInit (some k) (some p)) balP amount slippage
          userAddress genTxId genTxHash st =
        (st, HttpResp.unavailable "Service Unavailable", [])) ∧
    (∀ (balG : Except String ℚ) (amount slippage : ℚ)
       (userAddress genTxId genTxHash : String) (st : SysState),
      0 < amount →
      withdrawHandler (ensoServiceInit (some k) (some p)) balG amount slippage
          userAddress genTxId genTxHash st =
        (st, HttpResp.serverError "Withdrawal Failed", [])) ∧
    (∀ (balG : Except String ℚ) (slippage : ℚ)
       (userAddress genTxId genTxHash : String) (st : SysState),
      compoundHandler (ensoServiceInit (some k) (some p)) balG slippage
          userAddress genTxId genTxHash st =
        (st, HttpResp.serverError "Auto-Compound Failed", [])) := by
  refine ⟨rfl, rfl, fun _ _ _ _ _ _ _ => rfl, ?_, fun _ _ _ _ _ _ => rfl⟩
  intro balG amount slippage userAddress genTxId genTxHash st hpos
  show withdrawHandler none balG amount slippage userAddress genTxId
    genTxHash st = (st, HttpResp.serverError "Withdrawal Failed", [])
  simp only [withdrawHandler]
  rw [if_neg (not_le.mpr hpos)]

/-- Witness for C8 at concrete keys and a positive withdraw amount. -/
theorem c8_witness :
    ((0 : ℚ) < 5) ∧
    ensoServiceInit (some "key1") (some "pk1") = none ∧
    depositHandler (ensoServiceInit (some "key1") (some "pk1"))
        (Except.ok 100) 5 (1 / 2) "u9" "t9" "h9" sys0 =
      (sys0, HttpResp.unavailable "Service Unavailable", []) ∧
    withdrawHandler (ensoServiceInit (some "key1") (some "pk1"))
        (Except.ok 100) 5 (1 / 2) "u9" "t9" "h9" sys0 =
      (sys0, HttpResp.serverError "Withdrawal Failed", []) := by
  have h := c8_constructor_wallet_bug "key1" "pk1"
  exact ⟨by norm_num, h.2.1,
    h.2.2.1 (Except.ok 100) 5 (1 / 2) "u9" "t9" "h9" sys0,
    h.2.2.2.1 (Except.ok 100) 5 (1 / 2) "u9" "t9" "h9" sys0 (by norm_num)⟩

/-- C6 counterexample: with earnings of exactly 0.01 (an LP balance of 1),
the compound request is rejected with the 400 no-earnings response and no
transaction or monitor entry is created, contrary to the claim that
earnings of exactly 0.01 produce one transaction. -/
theorem c6_counterexample_at_exact_threshold :
    getEarningsQ (Except.ok 1) = 1 / 100 ∧
    compoundHandler (some svc0) (Except.ok 1) (1 / 2) "u9" "t9" "h9" sys0 =
      (sys0, HttpResp.badRequest "No Earnings Available"
        "Insufficient earnings to compound", [Effect.balanceRead "gnosis"]) := by
  refine ⟨getEarningsQ_ok_one, ?_⟩
  have h : getEarningsQ (Except.ok 1) ≤ 1 / 100 := by
    rw [getEarningsQ_ok_one]
  simp only [compoundHandler]
  rw [if_pos h]

/-- C6 amended: the compound threshold is strict.  Earnings at or below
0.01 (including exactly 0.01) yield the 400 no-earnings rejection with
zero transactions and zero monitor entries; earnings strictly above 0.01
create exactly one transaction (202 with one submission) and exactly one
new monitor entry. -/
theorem c6_amended_strict_threshold (svc : EnsoService)
    (bal : Except String ℚ) (slippage : ℚ)
    (userAddress genTxId genTxHash : String) (st : SysState) :
    (getEarningsQ bal ≤ 1 / 100 →
      compoundHandler (some svc) bal slippage userAddress genTxId genTxHash
          st =
        (st, HttpResp.badRequest "No Earnings Available"
          "Insufficient earnings to compound", [Effect.balanceRead "gnosis"])) ∧
    (1 / 100 < getEarningsQ bal →
      mlookup st.mon.activeMonitors genTxId = none →
      (compoundHandler (some svc) bal slippage userAddress genTxId genTxHash
          st).1.mon.activeMonitors.length =
        st.mon.activeMonitors.length + 1 ∧
      (compoundHandler (some svc) bal slippage userAddress genTxId genTxHash
          st).2.1 = HttpResp.accepted202 genTxId genTxHash ∧
      (compoundHandler (some svc) bal slippage userAddress genTxId genTxHash
          st).2.2 =
        [Effect.balanceRead "gnosis", Effect.balanceRead "gnosis",
         Effect.submitTx "deposit"]) := by
  constructor
  · intro h
    simp only [compoundHandler]
    rw [if_pos h]
  · intro h hfresh
    have hmon : (startTransactionMonitoring st.mon genTxId genTxHash
        userAddress "compound" "auto-compound" 0).activeMonitors =
        mset st.mon.activeMonitors genTxId
          { txId := genTxId, txHash := genTxHash, userId := userAddress,
            txType := "compound", details := "auto-compound", startTime := 0,
            retryCount := 0, status := TxStatus.monitoring,
            lastCheck := none } := by
      simp [startTransactionMonitoring, hfresh]
    simp only [compoundHandler]
    rw [if_neg (not_le.mpr h), if_pos h]
    refine ⟨?_, rfl, rfl⟩
    simp only [hmon]
    exact length_mset_of_none _ _ _ hfresh

/-- Witness for C6 amended, both branches: LP balance 1 gives earnings
exactly 0.01 and a rejection; LP balance 2 gives earnings 0.02 and one new
monitor entry with a 202 response. -/
theorem c6_witness :
    (getEarningsQ (Except.ok 1) ≤ 1 / 100 ∧
      compoundHandler (some svc0) (Except.ok 1) (1 / 2) "u8" "t8" "h8" sys0 =
        (sys0, HttpResp.badRequest "No Earnings Available"
          "Insufficient earnings to compound",
         [Effect.balanceRead "gnosis"])) ∧
    ((1 / 100 : ℚ) < getEarningsQ (Except.ok 2) ∧
      (compoundHandler (some svc0) (Except.ok 2) (1 / 2) "u8" "t8" "h8"
          sys0).1.mon.activeMonitors.length =
        sys0.mon.activeMonitors.length + 1) := by
  have hle : getEarningsQ (Except.ok 1) ≤ 1 / 100 := by
    rw [getEarningsQ_ok_one]
  have hlt : (1 / 100 : ℚ) < getEarningsQ (Except.ok 2) := by
    rw [getEarningsQ_ok_two]; norm_num
  refine ⟨⟨hle, ?_⟩, ⟨hlt, ?_⟩⟩
  · exact (c6_amended_strict_threshold svc0 (Except.ok 1) (1 / 2) "u8" "t8"
      "h8" sys0).1 hle
  · exact ((c6_amended_strict_threshold svc0 (Except.ok 2) (1 / 2) "u8" "t8"
      "h8" sys0).2 hlt (by decide)).1

/-- Runs one monitorTransaction invocation per listed timestamp, each poll
reporting still pending. -/
def pollStillPendingAt (s : MonState) (txId : String) (times : List Nat) :
    MonState :=
  match times with
  | [] => s
  | t :: rest =>
      pollStillPendingAt (monitorStep s txId PollResult.stillPending t) txId
        rest

/-- C1: a freshly registered transaction whose status check reports still
pending on every poll is still active with no timeout notification after
four polls, reaches the terminal timeout on exactly the fifth poll (one
timeout notification, entry removed from the active set), and a further
poll invocation changes nothing. -/
theorem c1_timeout_after_exactly_maxRetries
    (txId txHash userId txType details : String)
    (t0 t1 t2 t3 t4 t5 t6 : Nat) :
    (mlookup (pollStillPendingAt (startTransactionMonitoring emptyMon txId
        txHash userId txType details t0) txId
        [t1, t2, t3, t4]).activeMonitors txId).isSome = true ∧
    countTimeoutNotifs (pollStillPendingAt (startTransactionMonitoring
        emptyMon txId txHash userId txType details t0) txId
        [t1, t2, t3, t4]).notifications txId = 0 ∧
    mlookup (pollStillPendingAt (startTransactionMonitoring emptyMon txId
        txHash userId txType details t0) txId
        [t1, t2, t3, t4, t5]).activeMonitors txId = none ∧
    countTimeoutNotifs (pollStillPendingAt (startTransactionMonitoring
        emptyMon txId txHash userId txType details t0) txId
        [t1, t2, t3, t4, t5]).notifications txId = 1 ∧
    pollStillPendingAt (startTransactionMonitoring emptyMon txId txHash
        userId txType details t0) txId [t1, t2, t3, t4, t5, t6] =
      pollStillPendingAt (startTransactionMonitoring emptyMon txId txHash
        userId txType details t0) txId [t1, t2, t3, t4, t5] := by
  simp [emptyMon, pollStillPendingAt, startTransactionMonitoring, monitorStep,
    resumePoll, mlookup, mset, msetIfPresent, merase, eraseOne,
    handleTransactionTimeout, pendingProgressNotif, maxRetries,
    countTimeoutNotifs, isTimeoutNotifFor]

/-- C4 counterexample: an exception in the status check of an active
transaction is counted as a retry attempt (retryCount becomes 1) but emits
no user-facing message at all, contrary to the claim that each such retry
attempt produces a progress message. -/
theorem c4_counterexample_exception_has_no_progress_message :
    (monitorStep regMon1 "t1" (PollResult.raised "boom") 3).notifications =
      regMon1.notifications ∧
    (mlookup (monitorStep regMon1 "t1"
        (PollResult.raised "boom") 3).activeMonitors "t1").map
      Monitor.retryCount = some 1 := by
  decide

/-- C4 amended: an exception during the status check is handled like a
still-pending report for the active set, the retry counter and the
scheduling (re-poll, or timeout once the counter reaches maxRetries), and
at maxRetries the two runs are fully identical; below maxRetries, however,
the exception path emits no notification while the still-pending path emits
the pending progress message. -/
theorem c4_amended_exception_is_silent_retry (s : MonState)
    (txId errMsg : String) (m : Monitor) (now : Nat)
    (h : mlookup s.activeMonitors txId = some m) :
    (monitorStep s txId (PollResult.raised errMsg) now).activeMonitors =
      (monitorStep s txId PollResult.stillPending now).activeMonitors ∧
    (monitorStep s txId (PollResult.raised errMsg) now).scheduled =
      (monitorStep s txId PollResult.stillPending now).scheduled ∧
    (maxRetries ≤ m.retryCount + 1 →
      monitorStep s txId (PollResult.raised errMsg) now =
        monitorStep s txId PollResult.stillPending now) ∧
    (m.retryCount + 1 < maxRetries →
      (monitorStep s txId (PollResult.raised errMsg) now).notifications =
        s.notifications ∧
      (monitorStep s txId PollResult.stillPending now).notifications =
        s.notifications ++
          [pendingProgressNotif
            { m with lastCheck := some now,
                     retryCount := m.retryCount + 1 }]) := by
  have hstep : ∀ res : PollResult, monitorStep s txId res now =
      resumePoll { s with scheduled := eraseOne s.scheduled txId } txId m res
        now := by
    intro res
    simp [monitorStep, h]
  by_cases h5 : maxRetries ≤ m.retryCount + 1
  · have hEq : monitorStep s txId (PollResult.raised errMsg) now =
        monitorStep s txId PollResult.stillPending now := by
      rw [hstep, hstep]
      simp [resumePoll, h5]
    exact ⟨by rw [hEq], by rw [hEq], fun _ => hEq,
      fun hlt => absurd h5 (not_le.mpr hlt)⟩
  · refine ⟨?_, ?_, fun h5' => absurd h5' h5, fun _ => ⟨?_, ?_⟩⟩
    · rw [hstep, hstep]
      simp [resumePoll, h5]
    · rw [hstep, hstep]
      simp [resumePoll, h5]
    · rw [hstep]
      simp [resumePoll, h5]
    · rw [hstep]
      simp [resumePoll, h5]

/-- Witness for C4 amended at the concrete registered state. -/
theorem c4_witness :
    mlookup regMon1.activeMonitors "t1" = some capturedMon1 ∧
    capturedMon1.retryCount + 1 < maxRetries ∧
    (monitorStep regMon1 "t1" (PollResult.raised "crash") 4).notifications =
      regMon1.notifications := by
  have h := c4_amended_exception_is_silent_retry regMon1 "t1" "crash"
    capturedMon1 4 (by decide)
  exact ⟨by decide, by decide, (h.2.2.2 (by decide)).1⟩

/-- C5 counterexample: after the first still-pending poll the stored
monitor record for t1 still has status monitoring (with retryCount 1),
contrary to the claim that the record status transitions to pending. -/
theorem c5_counterexample_record_status_stays_monitoring :
    (mlookup (monitorStep regMon1 "t1"
        PollResult.stillPending 3).activeMonitors "t1").map Monitor.status =
      some TxStatus.monitoring ∧
    (mlookup (monitorStep regMon1 "t1"
        PollResult.stillPending 3).activeMonitors "t1").map
      Monitor.retryCount = some 1 := by
  decide

/-- C5 amended: the first still-pending poll of an active transaction
increments retryCount to 1 and broadcasts a progress update labelled
pending, but leaves the stored record status field unchanged (the code
never writes it after creation). -/
theorem c5_amended_status_field_never_updated (s : MonState) (txId : String)
    (m : Monitor) (now : Nat)
    (h : mlookup s.activeMonitors txId = some m) (h0 : m.retryCount = 0) :
    mlookup (monitorStep s txId PollResult.stillPending now).activeMonitors
        txId = some { m with lastCheck := some now, retryCount := 1 } ∧
    ({ m with lastCheck := some now, retryCount := 1 } : Monitor).status =
      m.status ∧
    (monitorStep s txId PollResult.stillPending now).notifications =
      s.notifications ++
        [Notif.txUpdate m.userId m.txId TxStatus.pending (some 1)
          "Transaction pending"] := by
  have h5 : ¬ (maxRetries ≤ m.retryCount + 1) := by
    rw [h0]; decide
  have hstep : monitorStep s txId PollResult.stillPending now =
      { activeMonitors := msetIfPresent (msetIfPresent s.activeMonitors txId
          { m with lastCheck := some now }) txId
          { m with lastCheck := some now, retryCount := m.retryCount + 1 },
        notifications := s.notifications ++
          [pendingProgressNotif
            { m with lastCheck := some now, retryCount := m.retryCount + 1 }],
        scheduled := eraseOne s.scheduled txId ++ [txId] } := by
    simp [monitorStep, h, resumePoll, h5]
  refine ⟨?_, rfl, ?_⟩
  · rw [hstep]
    have l1 := mlookup_msetIfPresent_self s.activeMonitors txId
      { m with lastCheck := some now } m h
    have l2 := mlookup_msetIfPresent_self _ txId
      { m with lastCheck := some now, retryCount := m.retryCount + 1 }
      { m with lastCheck := some now } l1
    simp only []
    rw [l2, h0]
  · rw [hstep]
    simp [pendingProgressNotif, h0]

/-- Witness for C5 amended at the concrete registered state. -/
theorem c5_witness :
    mlookup regMon1.activeMonitors "t1" = some capturedMon1 ∧
    capturedMon1.retryCount = 0 ∧
    mlookup (monitorStep regMon1 "t1"
        PollResult.stillPending 3).activeMonitors "t1" =
      some { capturedMon1 with lastCheck := some 3, retryCount := 1 } := by
  have h := c5_amended_status_field_never_updated regMon1 "t1" capturedMon1 3
    (by decide) (by decide)
  exact ⟨by decide, by decide, h.1⟩

/-- C2 counterexample: after cancelling t1 (which removes it from the
active set), delivering a queued still-pending poll result produces one
more notification, contrary to the claim that any poll result delivered
after removal causes no notification. -/
theorem c2_counterexample_late_still_pending_notifies :
    mlookup ((cancelTransaction sys1 "t1").1).mon.activeMonitors "t1" =
      none ∧
    (resumePoll ((cancelTransaction sys1 "t1").1).mon "t1" capturedMon1
        PollResult.stillPending 9).notifications.length =
      ((cancelTransaction sys1 "t1").1).mon.notifications.length + 1 := by
  decide

/-- C2 amended: once a pending transaction has been cancelled (removed from
the active set, stored status cancelled), a late completed or failed poll
result is discarded with no state change and no notification, and the
stored status remains cancelled; a late still-pending result cannot change
the active set or the stored status either, though it emits one more
progress notification. -/
theorem c2_amended_late_results_discarded (st : SysState)
    (tid errMsg : String) (t : StoredTx) (m : Monitor) (now : Nat)
    (hs : slookup st.txStore tid = some t)
    (hp : t.status = TxStatus.pending) :
    resumePoll ((cancelTransaction st tid).1).mon tid m PollResult.completed
        now = ((cancelTransaction st tid).1).mon ∧
    resumePoll ((cancelTransaction st tid).1).mon tid m
        (PollResult.failed errMsg) now = ((cancelTransaction st tid).1).mon ∧
    (resumePoll ((cancelTransaction st tid).1).mon tid m
        PollResult.stillPending now).activeMonitors =
      ((cancelTransaction st tid).1).mon.activeMonitors ∧
    (slookup ((cancelTransaction st tid).1).txStore tid).map
        StoredTx.status = some TxStatus.cancelled := by
  have hc : (cancelTransaction st tid).1 =
      { mon := { (stopMonitoring st.mon tid).1 with notifications :=
          ((stopMonitoring st.mon tid).1).notifications ++
            [Notif.txUpdate t.userAddress tid TxStatus.cancelled none
              "Transaction cancelled"] },
        txStore := sset st.txStore tid
          { t with status := TxStatus.cancelled } } := by
    simp [cancelTransaction, hs, hp]
  have hnone : mlookup ((cancelTransaction st tid).1).mon.activeMonitors
      tid = none := by
    rw [hc]
    simpa using mlookup_stopMonitoring_self st.mon tid
  refine ⟨resumePoll_removed_completed _ _ _ _ hnone,
    resumePoll_removed_failed _ _ _ _ _ hnone,
    resumePoll_removed_activeMonitors _ _ _ _ _ hnone, ?_⟩
  rw [hc]
  simp [slookup_sset_self]

/-- Witness for C2 amended: cancel the pending t1, then a queued completed
result is dropped and the stored status stays cancelled. -/
theorem c2_witness :
    slookup sys1.txStore "t1" = some storedPending1 ∧
    resumePoll ((cancelTransaction sys1 "t1").1).mon "t1" capturedMon1
        PollResult.completed 9 = ((cancelTransaction sys1 "t1").1).mon ∧
    (slookup ((cancelTransaction sys1 "t1").1).txStore "t1").map
        StoredTx.status = some TxStatus.cancelled := by
  have h := c2_amended_late_results_discarded sys1 "t1" "err" storedPending1
    capturedMon1 9 (by decide) (by decide)
  exact ⟨by decide, h.1, h.2.2.2⟩

end EnsoFarm
